import Mathlib

/-!
# Verification of the yt-live-recorder core

A shallow embedding, in Lean 4, of the parts of the recorder that the
specification's testable properties talk about:

* `src/utils.py` — filename sanitization and generation;
* `src/retry.py` — the backoff policy `calculate_delay` and the retry
  executor `retry_with_backoff`;
* `src/recorder.py` — the `StreamRecorder` session state
  (`start_recording` / `stop_recording`) and the reconnect loop
  `record_with_reconnect`;
* `src/monitor.py` — the per-channel transition step `_check_channel`
  together with `_start_recording` / `_stop_recording`;
* `src/youtube_api.py` — `check_live_status` and
  `get_channel_live_status`.

External effects (the OS process, the filesystem, `yt-dlp`, the random
source, wall-clock timestamps) are passed in as explicit parameters, so
every definition is an executable function of its inputs.
-/

namespace YtRec

/-! ## utils.py -/

/-- The characters `< > : " / \ | ? *` replaced by `re.sub(r'[<>:"/\\|?*]', '_', name)`
in `sanitize_filename` (src/utils.py line 18). -/
def isReservedChar (c : Char) : Bool :=
  c = '<' || c = '>' || c = ':' || c = '\"' || c = '/' || c = '\\' || c = '|' ||
    c = '?' || c = '*'

/-- The characters removed from both ends by `sanitized.strip(' .')`
(src/utils.py line 20). -/
def isStripChar (c : Char) : Bool :=
  c = ' ' || c = '.'

/-- Python's `str.strip(' .')`: drop the stripped characters from the front and from
the back of the character list. -/
def stripEnds (l : List Char) : List Char :=
  ((l.dropWhile isStripChar).reverse.dropWhile isStripChar).reverse

/-- Model of `sanitize_filename` (src/utils.py lines 8–24): replace the reserved
characters by `_`, strip spaces and dots at both ends, truncate to 100
characters, and fall back to `"unknown"` when the result is empty
(`return sanitized or 'unknown'`). -/
def sanitize_filename (name : String) : String :=
  let sanitized := name.toList.map (fun c => if isReservedChar c then '_' else c)
  let sanitized := stripEnds sanitized
  let sanitized := sanitized.take 100
  if sanitized.isEmpty then "unknown" else ⟨sanitized⟩

/-- Model of `generate_filename` (src/utils.py lines 27–41):
`f"{safe_name}_{timestamp}.{extension}"`.  The timestamp string that the
source obtains from `datetime.now().strftime('%Y%m%d_%H%M%S')` is passed
in as the explicit argument `timestamp`. -/
def generate_filename (channel_name extension timestamp : String) : String :=
  sanitize_filename channel_name ++ "_" ++ timestamp ++ "." ++ extension

/-! ## retry.py — backoff policy -/

/-- Model of `RetryConfig` (src/retry.py lines 10–18).  Python floats are modelled
as rationals; the retryable-exception classification is kept abstract in
the executor below and therefore not stored here. -/
structure RetryConfig where
  max_attempts : Nat := 3
  base_delay : ℚ := 1
  max_delay : ℚ := 30
  exponential_base : ℚ := 2
  jitter : Bool := true
deriving Repr, DecidableEq

/-- The exponentially grown delay after the `min` cap
(src/retry.py lines 42–45): `min(base_delay * exponential_base ** attempt, max_delay)`. -/
def cappedDelay (attempt : Nat) (config : RetryConfig) : ℚ :=
  min (config.base_delay * config.exponential_base ^ attempt) config.max_delay

/-- Model of `calculate_delay` (src/retry.py lines 29–52).  The value drawn by
`random.uniform(-jitter, jitter)` — where `jitter = delay * 0.25` — is
passed in as the explicit argument `u`; callers constrain it to
`|u| ≤ cappedDelay attempt config / 4`.  The final `max(0, delay)` floor
is applied in both branches, as in the source. -/
def calculate_delay (attempt : Nat) (config : RetryConfig) (u : ℚ) : ℚ :=
  let delay := cappedDelay attempt config
  let delay := if config.jitter then delay + u else delay
  max 0 delay

/-! ## retry.py — retry executor

The operation passed to `retry_with_backoff` is modelled as a function
`op : Nat → Except E A` giving the outcome of each successive invocation
(`op 0` is the first call).  The dynamic `except config.retryable_exceptions`
classification is the predicate `retryable : E → Bool`: an exception it
rejects is not caught by the `except` clause and propagates. -/

/-- How a call to `retry_with_backoff` ends (src/retry.py lines 55–97):
the operation's value, a propagated non-retryable exception, or
`RetryExhaustedError(last_exception)`. -/
inductive RetryResult (E A : Type) where
  | ok (a : A)
  | nonRetryable (e : E)
  | exhausted (last : Option E)
deriving Repr, DecidableEq

/-- The `for attempt in range(config.max_attempts)` loop of
`retry_with_backoff` (src/retry.py lines 78–97).  `remaining` is the number
of loop iterations still available (`max_attempts - attempt`); alongside
the result we return the number of invocations of the operation performed,
i.e. the index one past the last attempt.  The backoff sleep between
attempts has no effect on the returned value and is elided. -/
def retryGo (retryable : E → Bool) (op : Nat → Except E A) :
    Nat → Nat → Option E → RetryResult E A × Nat
  | 0, attempt, last => (.exhausted last, attempt)
  | remaining + 1, attempt, _last =>
    match op attempt with
    | .ok a => (.ok a, attempt + 1)
    | .error e =>
      if retryable e then retryGo retryable op remaining (attempt + 1) (some e)
      else (.nonRetryable e, attempt + 1)

/-- Model of `retry_with_backoff` (src/retry.py lines 55–97), specialised to the
data that determines its result: the retryable classification, the
attempt budget `max_attempts`, and the per-invocation outcomes. -/
def retry_with_backoff (retryable : E → Bool) (max_attempts : Nat)
    (op : Nat → Except E A) : RetryResult E A × Nat :=
  retryGo retryable op max_attempts 0 none

/-! ## recorder.py — StreamRecorder session state -/

/-- A handle on the external `yt-dlp` process.  `alive` records whether
the OS process has not yet exited (`poll() is None`). -/
structure ProcHandle where
  alive : Bool
deriving Repr, DecidableEq

/-- The mutable per-session fields of `StreamRecorder`
(src/recorder.py lines 48–58) that `start_recording` / `stop_recording`
touch.  Timestamps are abstract `Nat`s. -/
structure RecorderState where
  process : Option ProcHandle := none
  start_time : Option Nat := none
  current_file : Option String := none
  temp_file : Option String := none
  stream_url : Option String := none
  channel_name : Option String := none
deriving Repr, DecidableEq

/-- A `StreamRecorder` as constructed by `__init__`: no process, no files. -/
def initialRecorder : RecorderState := {}

/-- The errors `start_recording` raises (src/recorder.py lines 140, 144, 208). -/
inductive RecError where
  | alreadyRecording
  | insufficientDiskSpace
  | failedToStart (msg : String)
deriving Repr, DecidableEq

/-- The environment a call to `start_recording` runs in: the outcome of
`check_disk_space` (which itself answers `True` when the probe fails),
the filename `generate_filename` produces from the channel name and the
current clock, the current time, and whether `subprocess.Popen` succeeds. -/
structure StartEnv where
  diskOk : Bool := true
  filename : String := "out.mp4"
  now : Nat := 0
  launchOk : Bool := true
deriving Repr, DecidableEq

/-- Model of `start_recording` (src/recorder.py lines 119–208).  Returns the state
of the recorder after the call together with the returned final path or
the raised error.  The guard order follows the source: the
`Already recording` check comes first, then the disk-space check, and
only then are the session fields assigned — so a failed `Popen` (the
`failedToStart` case) leaves the file fields already mutated while
`_process` stays `None`. -/
def start_recording (s : RecorderState) (stream_url channel_name : String)
    (env : StartEnv) : RecorderState × Except RecError String :=
  if s.process.isSome then (s, .error .alreadyRecording)
  else if !env.diskOk then (s, .error .insufficientDiskSpace)
  else
    let s := { s with stream_url := some stream_url,
                      channel_name := some channel_name,
                      current_file := some env.filename,
                      temp_file := some ("." ++ env.filename ++ ".tmp") }
    if env.launchOk then
      ({ s with process := some ⟨true⟩, start_time := some env.now },
        .ok env.filename)
    else (s, .error (.failedToStart "Failed to start recording"))

/-- The environment a call to `stop_recording` runs in: whether the
temporary file exists on disk, and whether the rename to the final path
succeeds. -/
structure StopEnv where
  tempExists : Bool := true
  renameOk : Bool := true
deriving Repr, DecidableEq

/-- Model of `stop_recording` (src/recorder.py lines 210–258).  `None` when no
process is owned; otherwise the process is terminated, the handle is
cleared, and the temporary file — when it exists — is renamed to the
final path (falling back to the temporary path when the rename fails, so
no recorded bytes are lost). -/
def stop_recording (s : RecorderState) (env : StopEnv) :
    RecorderState × Option String :=
  if s.process = none then (s, none)
  else
    let s := { s with process := none }
    if s.temp_file.isSome && env.tempExists then
      if env.renameOk then (s, s.current_file)
      else (s, s.temp_file)
    else (s, none)

/-- Model of `is_recording` (src/recorder.py lines 260–270): a process handle is
owned and `poll()` reports it has not exited. -/
def is_recording (s : RecorderState) : Bool :=
  match s.process with
  | none => false
  | some p => p.alive

/-- Runs `n` consecutive calls to `stop_recording` under a fixed environment,
keeping only the recorder state. -/
def stopN (env : StopEnv) : Nat → RecorderState → RecorderState
  | 0, s => s
  | n + 1, s => stopN env n (stop_recording s env).1

/-! ## recorder.py — the reconnect loop

`record_with_reconnect` (src/recorder.py lines 333–407) interacts with
the world once per outer-loop iteration: a session is started and
monitored (possibly raising), `stop_recording` at line 380 yields an
optional part file, and `check_is_live()` at line 385 is consulted
(possibly raising).  Those observations are collected in one
`IterOutcome` per iteration.  The reconnect counter is incremented
exactly once on every path that re-enters the loop, so the iteration
index always equals the current value of `_reconnect_count`, and
`outcomes` is indexed by it. -/

/-- Where, if anywhere, an iteration of the reconnect loop raises.  The
`try` block spans lines 360–393, so an exception can occur either
before the `stop_recording` of line 380 returned (during
`start_recording`, `get_stream_url`, the monitoring poll of lines
371–377, or the stop itself) — in which case no part was appended — or
in the `check_is_live()` call of line 385, which runs only after the
part returned by line 380 was already appended at line 382. -/
inductive RaisePoint where
  | noRaise
  | duringSession
  | inPostStopCheck
deriving Repr, DecidableEq

/-- What the world does during one iteration of the reconnect loop:
where the iteration raises (if anywhere), the optional path returned by
the `stop_recording` at line 380 (reached unless the raise came during
the session), and the result of the post-stop `check_is_live()` call at
line 385 (consulted only when nothing raised). -/
structure IterOutcome where
  raisePoint : RaisePoint := .noRaise
  partFile : Option String := none
  stillLive : Bool := false
deriving Repr, DecidableEq

/-- The observable outcome of `record_with_reconnect`: the ordered part
list `_recording_parts`, the final `_reconnect_count`, how many
`stop_recording` calls the loop completed, and how many iterations of
the loop body ran. -/
structure ReconnectResult where
  parts : List String
  reconnectCount : Nat
  stops : Nat
  iterations : Nat
deriving Repr, DecidableEq

/-- The `while self._reconnect_count <= max_reconnects` loop of
`record_with_reconnect` (src/recorder.py lines 359–404).  On the
raise-free path the part returned by the line-380 `stop_recording` is
appended only when it is not `None` (`if part_file:`, line 381), and
the loop re-enters only when `check_is_live()` holds and the counter is
below the maximum.  An exception during the session reaches the handler
(lines 395–404) with nothing appended, and the handler's
`stop_recording` (line 397) is the iteration's only completed stop; an
exception in the post-stop liveness check of line 385 reaches the same
handler after the append already happened, so the iteration keeps its
part and completes two stops (lines 380 and 397).  The handler
re-enters only when the counter is below the maximum.  Every
re-entering path increments the counter, so the body runs at most
`max_reconnects + 1` times; `fuel` is an upper bound on the remaining
iterations, kept strictly above that so the fuel-exhausted base case is
never reached from `record_with_reconnect`. -/
def reconnectGo (outcomes : Nat → IterOutcome) (max_reconnects : Nat) :
    Nat → Nat → List String → Nat → Nat → ReconnectResult
  | 0, count, parts, stops, iters => ⟨parts, count, stops, iters⟩
  | fuel + 1, count, parts, stops, iters =>
    if count ≤ max_reconnects then
      let o := outcomes count
      match o.raisePoint with
      | .duringSession =>
        if count < max_reconnects then
          reconnectGo outcomes max_reconnects fuel (count + 1) parts (stops + 1)
            (iters + 1)
        else ⟨parts, count, stops + 1, iters + 1⟩
      | .inPostStopCheck =>
        let parts2 := parts ++ o.partFile.toList
        if count < max_reconnects then
          reconnectGo outcomes max_reconnects fuel (count + 1) parts2 (stops + 2)
            (iters + 1)
        else ⟨parts2, count, stops + 2, iters + 1⟩
      | .noRaise =>
        let parts2 := parts ++ o.partFile.toList
        if o.stillLive && decide (count < max_reconnects) then
          reconnectGo outcomes max_reconnects fuel (count + 1) parts2 (stops + 1)
            (iters + 1)
        else ⟨parts2, count, stops + 1, iters + 1⟩
    else ⟨parts, count, stops, iters⟩

/-- Model of `record_with_reconnect` (src/recorder.py lines 333–407):
`_recording_parts` and `_reconnect_count` start empty and zero. -/
def record_with_reconnect (outcomes : Nat → IterOutcome) (max_reconnects : Nat) :
    ReconnectResult :=
  reconnectGo outcomes max_reconnects (max_reconnects + 2) 0 [] 0 0

/-! ## youtube_api.py -/

/-- Model of `LiveStatus` (src/youtube_api.py lines 41–47). -/
structure LiveStatus where
  is_live : Bool
  video_id : Option String := none
  title : Option String := none
  channel_name : Option String := none
deriving Repr, DecidableEq

/-- A raised `YouTubeError` (or subclass), carrying `str(e)`. -/
structure YouTubeErr where
  msg : String
deriving Repr, DecidableEq

/-- The fields of the `yt-dlp --dump-json` metadata dictionary that
`check_live_status` / `get_channel_live_status` read, with the defaults
their `info.get(...)` calls supply. -/
structure VideoInfo where
  is_live : Bool := false
  live_status : String := "not_live"
  was_live : Bool := false
  title : Option String := none
  channel : Option String := none
  id : Option String := none
deriving Repr, DecidableEq

/-- Model of `check_live_status` (src/youtube_api.py lines 144–178).  The outcome
of the wrapped `get_video_info` call is the explicit argument `fetch`.
The `except YouTubeError` clause turns any fetch failure into
`LiveStatus(is_live=False)`; the local `was_live` read on line 169 is
never used.  On success the reported id is the `video_id` argument, not
a field of the metadata. -/
def check_live_status (video_id : String) (fetch : Except YouTubeErr VideoInfo) :
    LiveStatus :=
  match fetch with
  | .ok info =>
    { is_live := info.is_live || info.live_status == "is_live",
      video_id := some video_id,
      title := info.title,
      channel_name := info.channel }
  | .error _ => { is_live := false }

/-- The errors `get_channel_live_status` raises. -/
inductive ChannelCheckError where
  | invalidChannelId (msg : String)
  | channelNotFound (channel_id : String)
  | youtubeError (msg : String)
deriving Repr, DecidableEq

/-- The `any(msg in error_msg for msg in [...])` classification of
src/youtube_api.py line 212, applied to the lower-cased error text. -/
def isNotFoundMessage (msg : String) : Bool :=
  let m := msg.toLower.toList
  decide ("not found".toList <:+: m) || decide ("unavailable".toList <:+: m) ||
    decide ("does not exist".toList <:+: m) || decide ("removed".toList <:+: m)

/-- Model of `get_channel_live_status` (src/youtube_api.py lines 181–235).  The
empty string stands for the falsy `channel_id` of the validation on
line 201.  A fetch failure is re-raised — as `ChannelNotFoundError` when
its message matches the not-found patterns, unchanged otherwise. -/
def get_channel_live_status (channel_id : String)
    (fetch : Except YouTubeErr VideoInfo) : Except ChannelCheckError LiveStatus :=
  if channel_id = "" then
    .error (.invalidChannelId "Invalid channel_id: must be a non-empty string")
  else
    match fetch with
    | .error e =>
      if isNotFoundMessage e.msg then .error (.channelNotFound channel_id)
      else .error (.youtubeError e.msg)
    | .ok info =>
      let actually_live := info.is_live && info.live_status == "is_live" && !info.was_live
      .ok { is_live := actually_live,
            video_id := if actually_live then info.id else none,
            title := if actually_live then info.title else none,
            channel_name := info.channel }

/-! ## monitor.py — per-channel state machine -/

/-- The mutable fields of `ChannelState` (src/monitor.py lines 23–34)
that `_check_channel` and its helpers touch.  The owned
`StreamRecorder` is embedded as its session state; `config.name` is the
only piece of the static config the transition step reads. -/
structure ChannelState where
  config_name : String := "ch"
  is_live : Bool := false
  is_recording : Bool := false
  current_video_id : Option String := none
  current_title : Option String := none
  recorder : Option RecorderState := none
  last_error : Option String := none
  recording_start_time : Option Nat := none
deriving Repr, DecidableEq

/-- A `ChannelState(config=ch)` as built in `ChannelMonitor.__init__`. -/
def initialChannelState : ChannelState := {}

/-- One poll's outcome as seen by `_check_channel`: the `LiveStatus`
returned by `get_channel_live_status`, or one of the two exception
classes its `except` clauses distinguish. -/
inductive PollResult where
  | ok (status : LiveStatus)
  | channelNotFoundErr (msg : String)
  | youTubeErr (msg : String)
deriving Repr, DecidableEq

/-- A start or stop of the channel's Session Supervisor, tagged with the
video id the session is for (for a stop: the `current_video_id` of the
session being stopped). -/
inductive Action where
  | start (video_id : Option String)
  | stop (video_id : Option String)
deriving Repr, DecidableEq

/-- The collaborator outcomes a `_start_recording` call depends on:
whether `get_stream_url` succeeds (and the URL it returns), and the
environment of the inner `StreamRecorder.start_recording` call. -/
structure MonitorEnv where
  urlOk : Bool := true
  stream_url : String := "https://stream"
  startEnv : StartEnv := {}
deriving Repr, DecidableEq

/-- Model of `_start_recording` (src/monitor.py lines 132–181).  On success the
freshly constructed supervisor is stored and the recording fields are
set; on any failure (`get_stream_url` or `start_recording` raising) the
`except` clause sets `is_recording = False` and records the error,
leaving `state.recorder` unassigned.  Returns the updated state and the
supervisor actions performed. -/
def monitorStartRecording (s : ChannelState) (status : LiveStatus)
    (env : MonitorEnv) : ChannelState × List Action :=
  if !env.urlOk then
    ({ s with is_recording := false,
              last_error := some "Failed to start recording" }, [])
  else
    match start_recording initialRecorder env.stream_url s.config_name env.startEnv with
    | (r, .ok _) =>
      ({ s with recorder := some r,
                is_recording := true,
                current_video_id := status.video_id,
                current_title := status.title,
                recording_start_time := some env.startEnv.now },
        [.start status.video_id])
    | (_, .error _) =>
      ({ s with is_recording := false,
                last_error := some "Failed to start recording" }, [])

/-- Model of `_stop_recording` (src/monitor.py lines 182–206).  The supervisor's
`stop_recording` is invoked only when a supervisor is stored and the
flag is set (its returned path is only logged); the recording fields are
cleared unconditionally. -/
def monitorStopRecording (s : ChannelState) : ChannelState × List Action :=
  let acts := if s.recorder.isSome && s.is_recording then
      [Action.stop s.current_video_id]
    else []
  ({ s with recorder := none,
            is_recording := false,
            current_video_id := none,
            current_title := none,
            recording_start_time := none }, acts)

/-- Model of `_check_channel` (src/monitor.py lines 81–130).  `was_live` and
`current_video` are read before any action, the transition branches
follow the source's `if/elif` chain, and `state.is_live` is set to the
polled value afterwards; the two exception handlers only record the
error text.  The `state.last_check` timestamp is not modelled. -/
def checkChannel (s : ChannelState) (poll : PollResult) (env : MonitorEnv) :
    ChannelState × List Action :=
  match poll with
  | .channelNotFoundErr msg => ({ s with last_error := some msg }, [])
  | .youTubeErr msg => ({ s with last_error := some msg }, [])
  | .ok status =>
    let s0 : ChannelState := { s with last_error := none }
    let was_live := s0.is_live
    let current_video := s0.current_video_id
    let step : ChannelState × List Action :=
      if status.is_live && !was_live then
        monitorStartRecording s0 status env
      else if !status.is_live && was_live then
        monitorStopRecording s0
      else if status.is_live && was_live then
        if status.video_id ≠ current_video then
          let stopped := monitorStopRecording s0
          let started := monitorStartRecording stopped.1 status env
          (started.1, stopped.2 ++ started.2)
        else (s0, [])
      else (s0, [])
    ({ step.1 with is_live := status.is_live }, step.2)

/-- A sequence of polls against one channel, accumulating the actions in
order — the repeated `_check_channel` calls of `_monitor_channel`'s
loop. -/
def runPolls (env : MonitorEnv) : ChannelState → List PollResult → ChannelState × List Action
  | s, [] => (s, [])
  | s, p :: ps =>
    let step := checkChannel s p env
    let rest := runPolls env step.1 ps
    (rest.1, step.2 ++ rest.2)

/-- The owned capture process exits on its own (crash or natural end of
stream): `poll()` starts returning an exit code while all of the
monitor's fields are untouched.  No code in monitor.py observes this
event. -/
def processExit (s : ChannelState) : ChannelState :=
  let exited := fun (r : RecorderState) =>
    { r with process := r.process.map (fun _ => ⟨false⟩) }
  { s with recorder := s.recorder.map exited }

/-- Per-channel states reachable from construction under poll steps (any
poll outcome, any collaborator environment) and spontaneous exits of the
capture process. -/
inductive ReachableChannel : ChannelState → Prop where
  | init : ReachableChannel initialChannelState
  | poll (s : ChannelState) (p : PollResult) (env : MonitorEnv) :
      ReachableChannel s → ReachableChannel (checkChannel s p env).1
  | procExit (s : ChannelState) :
      ReachableChannel s → ReachableChannel (processExit s)

/-! ## Scenario inputs used by the claim theorems -/

/-- The C1 scenario: the recording is interrupted and the post-stop
liveness check answers live for exactly the first three cycles (each of
which saved a part), after which the source is permanently offline and
the final session records nothing. -/
def threeCycleOutcomes : Nat → IterOutcome := fun i =>
  if i < 3 then { raisePoint := .noRaise, partFile := some (toString i), stillLive := true }
  else { raisePoint := .noRaise, partFile := none, stillLive := false }

/-- A single interrupted session whose `stop_recording` returns no file,
after which the source is offline. -/
def noFileOutcome : Nat → IterOutcome := fun _ =>
  { raisePoint := .noRaise, partFile := none, stillLive := false }

/-- What one iteration of the reconnect loop appends to
`_recording_parts`: the optional part file returned by its line-380
`stop_recording` when that stop was reached — whether or not the
post-stop liveness check then raised — and nothing when the iteration
raised during the session, before the stop returned. -/
def iterationAppends (o : IterOutcome) : List String :=
  match o.raisePoint with
  | .duringSession => []
  | .inPostStopCheck => o.partFile.toList
  | .noRaise => o.partFile.toList

/-- The parts appended by the first `n` iterations of the reconnect
loop, starting at iteration index `start`. -/
def collectedFrom (outcomes : Nat → IterOutcome) (start : Nat) : Nat → List String
  | 0 => []
  | n + 1 => iterationAppends (outcomes start) ++ collectedFrom outcomes (start + 1) n

/-- A recorder that currently owns a live process. -/
def busyRecorder : RecorderState := { process := some ⟨true⟩ }

/-! ## Theorems -/

/-- C1: for the reconnect loop `record_with_reconnect`, a source whose
liveness check reports live for exactly 3 interruption cycles and is
then permanently offline, with `maxReconnects = 5`, makes the loop
terminate after 3 restarts (not 5) and return an ordered parts list of
exactly 3 elements. -/
theorem reconnect_three_cycles_three_parts :
    (record_with_reconnect threeCycleOutcomes 5).parts = ["0", "1", "2"] ∧
      (record_with_reconnect threeCycleOutcomes 5).parts.length = 3 ∧
      (record_with_reconnect threeCycleOutcomes 5).reconnectCount = 3 ∧
      (record_with_reconnect threeCycleOutcomes 5).reconnectCount ≠ 5 := by
  decide

/-- C2 counterexample: one iteration of the reconnect loop completes
(its session is stopped once) with `stop_recording` returning `None`,
and nothing is appended to the parts list — the claim predicts the
resulting path is appended regardless, giving a one-element list. -/
theorem reconnect_part_not_appended_without_file :
    (record_with_reconnect noFileOutcome 0).stops = 1 ∧
      (record_with_reconnect noFileOutcome 0).parts = [] ∧
      (record_with_reconnect noFileOutcome 0).parts.length ≠ 1 := by
  decide

/-- C7: `start_recording` on a recorder that already owns a process
fails with `Already recording`, and the guard fires before any field is
assigned, so the first session's state is returned unchanged. -/
theorem start_recording_already_recording (s : RecorderState)
    (stream_url channel_name : String) (env : StartEnv)
    (h : s.process.isSome = true) :
    start_recording s stream_url channel_name env = (s, .error .alreadyRecording) := by
  simp [start_recording, h]

/-- Witness for C7 at a recorder owning a live process. -/
theorem start_recording_already_recording_witness :
    busyRecorder.process.isSome = true ∧
      start_recording busyRecorder "url" "ch" {} =
        (busyRecorder, .error .alreadyRecording) :=
  ⟨rfl, start_recording_already_recording busyRecorder "url" "ch" {} rfl⟩

/-- C8: `stop_recording` on a recorder owning no process returns `None`
with the state unchanged, and consequently any number of consecutive
calls leaves the state unchanged. -/
theorem stop_recording_noop (s : RecorderState) (env : StopEnv)
    (h : s.process = none) :
    stop_recording s env = (s, none) ∧ ∀ n, stopN env n s = s := by
  constructor
  · simp [stop_recording, h]
  · intro n
    induction n with
    | zero => rfl
    | succ k ih => simp [stopN, stop_recording, h, ih]

/-- Witness for C8: a freshly constructed recorder, stopped once and
three times. -/
theorem stop_recording_noop_witness :
    stop_recording initialRecorder {} = (initialRecorder, none) ∧
      stopN {} 3 initialRecorder = initialRecorder :=
  ⟨(stop_recording_noop initialRecorder {} rfl).1,
    (stop_recording_noop initialRecorder {} rfl).2 3⟩

/-- C10: `check_live_status` never propagates a `YouTubeError`: any
fetch failure yields `LiveStatus(is_live=False)` with no video id, title
or channel name — while `get_channel_live_status` re-raises every fetch
failure (as `ChannelNotFoundError` or unchanged). -/
theorem check_live_status_never_propagates (video_id : String) (e : YouTubeErr) :
    check_live_status video_id (.error e) =
      { is_live := false, video_id := none, title := none, channel_name := none } ∧
      ∀ channel_id : String, ∃ e',
        get_channel_live_status channel_id (.error e) = .error e' := by
  refine ⟨rfl, fun channel_id => ?_⟩
  simp only [get_channel_live_status]
  split
  · exact ⟨_, rfl⟩
  · split <;> exact ⟨_, rfl⟩

/-- C5: the backoff delay is between `0` and `max_delay * 1.25` for
every attempt and every nonnegative configuration (with the sampled
jitter within its `±25%` range), and with jitter disabled it is exactly
the exponential value capped at `max_delay`. -/
theorem calculate_delay_bounds (attempt : Nat) (config : RetryConfig) (u : ℚ)
    (hb : 0 ≤ config.base_delay) (hm : 0 ≤ config.max_delay)
    (he : 0 ≤ config.exponential_base)
    (hu : |u| ≤ cappedDelay attempt config / 4) :
    0 ≤ calculate_delay attempt config u ∧
      calculate_delay attempt config u ≤ config.max_delay * (5 / 4) ∧
      (config.jitter = false →
        calculate_delay attempt config u =
          min (config.base_delay * config.exponential_base ^ attempt) config.max_delay) := by
  have hx : 0 ≤ config.base_delay * config.exponential_base ^ attempt :=
    mul_nonneg hb (pow_nonneg he attempt)
  have hc : 0 ≤ cappedDelay attempt config := le_min hx hm
  have hcm : cappedDelay attempt config ≤ config.max_delay := min_le_right _ _
  have hu' : u ≤ cappedDelay attempt config / 4 := (le_abs_self u).trans hu
  refine ⟨le_max_left 0 _, ?_, ?_⟩
  · cases hj : config.jitter with
    | false =>
      have heq : calculate_delay attempt config u = max 0 (cappedDelay attempt config) := by
        simp [calculate_delay, hj]
      rw [heq]
      exact max_le (by linarith) (by linarith)
    | true =>
      have heq : calculate_delay attempt config u =
          max 0 (cappedDelay attempt config + u) := by
        simp [calculate_delay, hj]
      rw [heq]
      exact max_le (by linarith) (by linarith)
  · intro hj
    have heq : calculate_delay attempt config u = max 0 (cappedDelay attempt config) := by
      simp [calculate_delay, hj]
    rw [heq, max_eq_right hc]
    rfl

/-- Witness for C5: attempt 0 under the default configuration with a
zero jitter draw. -/
theorem calculate_delay_bounds_witness :
    0 ≤ calculate_delay 0 {} 0 ∧
      calculate_delay 0 {} 0 ≤ ({} : RetryConfig).max_delay * (5 / 4) ∧
      (({} : RetryConfig).jitter = false →
        calculate_delay 0 {} 0 =
          min (({} : RetryConfig).base_delay * ({} : RetryConfig).exponential_base ^ 0)
            ({} : RetryConfig).max_delay) :=
  calculate_delay_bounds 0 {} 0 (by norm_num) (by norm_num) (by norm_num)
    (by simp [cappedDelay])

/-! ### Reconnect loop: general characterization of the parts list (C2) -/

/-- The stop counter never decreases along the reconnect loop. -/
theorem reconnectGo_iterations_le (outcomes : Nat → IterOutcome) (m : Nat) :
    ∀ fuel count parts stops iters,
      iters ≤ (reconnectGo outcomes m fuel count parts stops iters).iterations := by
  intro fuel
  induction fuel with
  | zero => intro count parts stops iters; exact le_refl _
  | succ f ih =>
    intro count parts stops iters
    simp only [reconnectGo]
    split
    · split
      · split
        · exact le_trans (Nat.le_succ _) (ih _ _ _ _)
        · exact Nat.le_succ _
      · split
        · exact le_trans (Nat.le_succ _) (ih _ _ _ _)
        · exact Nat.le_succ _
      · split
        · exact le_trans (Nat.le_succ _) (ih _ _ _ _)
        · exact Nat.le_succ _
    · exact le_refl _

/-- As long as the loop guard holds, at least one iteration of the body
runs. -/
theorem reconnectGo_iterations_pos (outcomes : Nat → IterOutcome) (m fuel count : Nat)
    (parts : List String) (stops iters : Nat) (h1 : count ≤ m) :
    iters + 1 ≤ (reconnectGo outcomes m (fuel + 1) count parts stops iters).iterations := by
  simp only [reconnectGo, if_pos h1]
  split
  · split
    · exact reconnectGo_iterations_le outcomes m fuel _ _ _ _
    · exact le_refl _
  · split
    · exact reconnectGo_iterations_le outcomes m fuel _ _ _ _
    · exact le_refl _
  · split
    · exact reconnectGo_iterations_le outcomes m fuel _ _ _ _
    · exact le_refl _

/-- Every iteration of the loop body completes at least one
`stop_recording` call (line 397 on a during-session exception, line 380
otherwise, plus line 397 again when the post-stop check raises). -/
theorem reconnectGo_iterations_le_stops (outcomes : Nat → IterOutcome) (m : Nat) :
    ∀ fuel count parts stops iters, iters ≤ stops →
      (reconnectGo outcomes m fuel count parts stops iters).iterations ≤
        (reconnectGo outcomes m fuel count parts stops iters).stops := by
  intro fuel
  induction fuel with
  | zero => intro count parts stops iters h; exact h
  | succ f ih =>
    intro count parts stops iters h
    simp only [reconnectGo]
    split
    · split
      · split
        · exact ih _ _ _ _ (by omega)
        · show iters + 1 ≤ stops + 1
          omega
      · split
        · exact ih _ _ _ _ (by omega)
        · show iters + 1 ≤ stops + 2
          omega
      · split
        · exact ih _ _ _ _ (by omega)
        · show iters + 1 ≤ stops + 1
          omega
    · exact h

/-- The parts list grows by exactly `iterationAppends` per executed
iteration: the part file returned by the line-380 `stop_recording` when
it was reached (kept even when the line-385 liveness check then
raised), nothing when the iteration raised during the session. -/
theorem reconnectGo_parts_spec (outcomes : Nat → IterOutcome) (m : Nat) :
    ∀ fuel count parts stops iters,
      (reconnectGo outcomes m fuel count parts stops iters).parts =
        parts ++ collectedFrom outcomes count
          ((reconnectGo outcomes m fuel count parts stops iters).iterations - iters) := by
  intro fuel
  induction fuel with
  | zero =>
    intro c parts stops iters
    simp [reconnectGo, collectedFrom]
  | succ f ih =>
    intro c parts stops iters
    by_cases h1 : c ≤ m
    · cases h2 : (outcomes c).raisePoint with
      | duringSession =>
        by_cases h3 : c < m
        · have hmono := reconnectGo_iterations_le outcomes m f (c + 1) parts
            (stops + 1) (iters + 1)
          have hstep : reconnectGo outcomes m (f + 1) c parts stops iters =
              reconnectGo outcomes m f (c + 1) parts (stops + 1) (iters + 1) := by
            simp [reconnectGo, h1, h2, h3]
          rw [hstep, ih]
          have harith : (reconnectGo outcomes m f (c + 1) parts (stops + 1)
                (iters + 1)).iterations - iters =
              ((reconnectGo outcomes m f (c + 1) parts (stops + 1)
                (iters + 1)).iterations - (iters + 1)) + 1 := by
            omega
          rw [harith]
          simp only [collectedFrom]
          simp [iterationAppends, h2]
        · have hstep : reconnectGo outcomes m (f + 1) c parts stops iters =
              ⟨parts, c, stops + 1, iters + 1⟩ := by
            simp [reconnectGo, h1, h2, h3]
          rw [hstep]
          simp [collectedFrom, iterationAppends, h2]
      | inPostStopCheck =>
        by_cases h3 : c < m
        · have hmono := reconnectGo_iterations_le outcomes m f (c + 1)
            (parts ++ (outcomes c).partFile.toList) (stops + 2) (iters + 1)
          have hstep : reconnectGo outcomes m (f + 1) c parts stops iters =
              reconnectGo outcomes m f (c + 1) (parts ++ (outcomes c).partFile.toList)
                (stops + 2) (iters + 1) := by
            simp [reconnectGo, h1, h2, h3]
          rw [hstep, ih]
          have harith : (reconnectGo outcomes m f (c + 1)
                (parts ++ (outcomes c).partFile.toList) (stops + 2)
                (iters + 1)).iterations - iters =
              ((reconnectGo outcomes m f (c + 1) (parts ++ (outcomes c).partFile.toList)
                (stops + 2) (iters + 1)).iterations - (iters + 1)) + 1 := by
            omega
          rw [harith]
          simp only [collectedFrom]
          simp [iterationAppends, h2]
        · have hstep : reconnectGo outcomes m (f + 1) c parts stops iters =
              ⟨parts ++ (outcomes c).partFile.toList, c, stops + 2, iters + 1⟩ := by
            simp [reconnectGo, h1, h2, h3]
          rw [hstep]
          simp [collectedFrom, iterationAppends, h2]
      | noRaise =>
        by_cases h3 : ((outcomes c).stillLive && decide (c < m)) = true
        · have hmono := reconnectGo_iterations_le outcomes m f (c + 1)
            (parts ++ (outcomes c).partFile.toList) (stops + 1) (iters + 1)
          have hstep : reconnectGo outcomes m (f + 1) c parts stops iters =
              reconnectGo outcomes m f (c + 1) (parts ++ (outcomes c).partFile.toList)
                (stops + 1) (iters + 1) := by
            simp [reconnectGo, h1, h2, h3]
          rw [hstep, ih]
          have harith : (reconnectGo outcomes m f (c + 1)
                (parts ++ (outcomes c).partFile.toList) (stops + 1)
                (iters + 1)).iterations - iters =
              ((reconnectGo outcomes m f (c + 1) (parts ++ (outcomes c).partFile.toList)
                (stops + 1) (iters + 1)).iterations - (iters + 1)) + 1 := by
            omega
          rw [harith]
          simp only [collectedFrom]
          simp [iterationAppends, h2]
        · have hstep : reconnectGo outcomes m (f + 1) c parts stops iters =
              ⟨parts ++ (outcomes c).partFile.toList, c, stops + 1, iters + 1⟩ := by
            simp [reconnectGo, h1, h2, h3]
          rw [hstep]
          simp [collectedFrom, iterationAppends, h2]
    · have hstep : reconnectGo outcomes m (f + 1) c parts stops iters =
          ⟨parts, c, stops, iters⟩ := by
        simp [reconnectGo, h1]
      rw [hstep]
      simp [collectedFrom]

/-- C2 (amended): the reconnect loop runs at least one iteration, each
iteration completes at least one `stop_recording` call, and the final
parts list consists of exactly the part files returned by the
per-iteration `stop_recording` of line 380 where that stop was
reached — a path is appended only when the stop returned one (`None`
appends nothing), it is kept even when the post-stop liveness check
then raised, and an iteration that raised before the stop returned
appends nothing. -/
theorem reconnect_parts_only_saved_files (outcomes : Nat → IterOutcome) (m : Nat) :
    1 ≤ (record_with_reconnect outcomes m).iterations ∧
      (record_with_reconnect outcomes m).iterations ≤
        (record_with_reconnect outcomes m).stops ∧
      (record_with_reconnect outcomes m).parts =
        collectedFrom outcomes 0 (record_with_reconnect outcomes m).iterations := by
  refine ⟨?_, ?_, ?_⟩
  · simpa using reconnectGo_iterations_pos outcomes m (m + 1) 0 [] 0 0 (Nat.zero_le m)
  · exact reconnectGo_iterations_le_stops outcomes m (m + 2) 0 [] 0 0 (le_refl 0)
  · simpa using reconnectGo_parts_spec outcomes m (m + 2) 0 [] 0 0

/-! ### Monitor transition table (C3) -/

/-- The C3 poll sequence: not-live, live A, live A, live B, not-live. -/
def c3Polls : List PollResult :=
  [.ok { is_live := false }, .ok { is_live := true, video_id := some "A" },
   .ok { is_live := true, video_id := some "A" },
   .ok { is_live := true, video_id := some "B" }, .ok { is_live := false }]

/-- C3: feeding the per-source transition step the poll sequence
`[not-live, live(A), live(A), live(B), not-live]` from the initial
state, with all start attempts succeeding, produces exactly
`start(A), stop(A), start(B), stop(B)` in that order and no other
start or stop actions. -/
theorem monitor_poll_sequence_actions :
    (runPolls {} initialChannelState c3Polls).2 =
      [.start (some "A"), .stop (some "A"), .start (some "B"), .stop (some "B")] := by
  decide

/-! ### Retry executor (C6) -/

/-- The outcome of one invocation is an exception the configured
classification retries. -/
def retryableErrorOutcome (retryable : E → Bool) (x : Except E A) : Prop :=
  ∃ e, x = .error e ∧ retryable e = true

/-- The executor performs at most `attempt + remaining` invocations in
total. -/
theorem retryGo_count_le (retryable : E → Bool) (op : Nat → Except E A) :
    ∀ remaining attempt last,
      (retryGo retryable op remaining attempt last).2 ≤ attempt + remaining := by
  intro remaining
  induction remaining with
  | zero => intro attempt last; simp [retryGo]
  | succ rem ih =>
    intro attempt last
    cases hop : op attempt with
    | ok a =>
      have hstep : (retryGo retryable op (rem + 1) attempt last).2 = attempt + 1 := by
        simp [retryGo, hop]
      omega
    | error e =>
      by_cases hr : retryable e = true
      · have hstep : retryGo retryable op (rem + 1) attempt last =
            retryGo retryable op rem (attempt + 1) (some e) := by
          simp [retryGo, hop, hr]
        have := ih (attempt + 1) (some e)
        rw [hstep]
        omega
      · have hstep : (retryGo retryable op (rem + 1) attempt last).2 = attempt + 1 := by
          simp [retryGo, hop, hr]
        omega

/-- A non-retryable failure at relative position `k`, after `k`
retryable failures, ends the run at once with that failure propagated
and exactly `k + 1` invocations performed from `attempt` on. -/
theorem retryGo_nonretryable (retryable : E → Bool) (op : Nat → Except E A) :
    ∀ remaining k attempt last e, k < remaining →
      (∀ j, j < k → retryableErrorOutcome retryable (op (attempt + j))) →
      op (attempt + k) = .error e → retryable e = false →
      retryGo retryable op remaining attempt last =
        (.nonRetryable e, attempt + k + 1) := by
  intro remaining
  induction remaining with
  | zero =>
    intro k attempt last e hk
    exact (Nat.not_lt_zero k hk).elim
  | succ rem ih =>
    intro k attempt last e hk hpre hop hr
    cases k with
    | zero =>
      simp only [Nat.add_zero] at hop
      simp [retryGo, hop, hr]
    | succ k' =>
      obtain ⟨e0, hop0, hr0⟩ := hpre 0 (Nat.succ_pos k')
      simp only [Nat.add_zero] at hop0
      have hstep : retryGo retryable op (rem + 1) attempt last =
          retryGo retryable op rem (attempt + 1) (some e0) := by
        simp [retryGo, hop0, hr0]
      rw [hstep]
      have hres := ih k' (attempt + 1) (some e0) e (by omega)
        (fun j hj => by
          have harg : attempt + 1 + j = attempt + (j + 1) := by omega
          rw [harg]
          exact hpre (j + 1) (by omega))
        (by
          have harg : attempt + 1 + k' = attempt + (k' + 1) := by omega
          rw [harg]
          exact hop) hr
      rw [hres]
      have harith : attempt + 1 + k' + 1 = attempt + (k' + 1) + 1 := by omega
      rw [harith]

/-- When every invocation available to the loop fails retryably, the
run ends with `RetryExhausted` carrying the failure of the last
invocation, after using the whole budget. -/
theorem retryGo_exhausted (retryable : E → Bool) (op : Nat → Except E A) :
    ∀ remaining attempt last, 1 ≤ remaining →
      (∀ j, j < remaining → retryableErrorOutcome retryable (op (attempt + j))) →
      ∃ e, op (attempt + (remaining - 1)) = .error e ∧
        retryGo retryable op remaining attempt last =
          (.exhausted (some e), attempt + remaining) := by
  intro remaining
  induction remaining with
  | zero => intro attempt last h; omega
  | succ rem ih =>
    intro attempt last _ hall
    obtain ⟨e0, hop0, hr0⟩ := hall 0 (Nat.succ_pos rem)
    simp only [Nat.add_zero] at hop0
    cases rem with
    | zero =>
      refine ⟨e0, by simpa using hop0, ?_⟩
      simp [retryGo, hop0, hr0]
    | succ rem' =>
      obtain ⟨e, hope, hrese⟩ := ih (attempt + 1) (some e0) (Nat.succ_pos rem')
        (fun j hj => by
          have harg : attempt + 1 + j = attempt + (j + 1) := by omega
          rw [harg]
          exact hall (j + 1) (by omega))
      refine ⟨e, ?_, ?_⟩
      · have harg : attempt + (rem' + 1 + 1 - 1) = attempt + 1 + (rem' + 1 - 1) := by omega
        rw [harg]
        exact hope
      · have hstep : retryGo retryable op (rem' + 1 + 1) attempt last =
            retryGo retryable op (rem' + 1) (attempt + 1) (some e0) := by
          simp [retryGo, hop0, hr0]
        rw [hstep, hrese]
        have harith : attempt + 1 + (rem' + 1) = attempt + (rem' + 1 + 1) := by omega
        rw [harith]

/-- C6: the retry executor invokes the operation at most
`max_attempts` times; a non-retryable failure, first occurring at
invocation `k` after only retryable failures, propagates immediately
with no further attempts; and when all `max_attempts` invocations fail
retryably the run ends with `RetryExhausted` carrying the last
failure. -/
theorem retry_executor_spec {E A : Type} (retryable : E → Bool) (max_attempts : Nat)
    (op : Nat → Except E A) :
    (retry_with_backoff retryable max_attempts op).2 ≤ max_attempts ∧
      (∀ k e, k < max_attempts →
        (∀ j, j < k → retryableErrorOutcome retryable (op j)) →
        op k = .error e → retryable e = false →
        retry_with_backoff retryable max_attempts op = (.nonRetryable e, k + 1)) ∧
      (1 ≤ max_attempts →
        (∀ j, j < max_attempts → retryableErrorOutcome retryable (op j)) →
        ∃ e, op (max_attempts - 1) = .error e ∧
          retry_with_backoff retryable max_attempts op =
            (.exhausted (some e), max_attempts)) := by
  refine ⟨?_, ?_, ?_⟩
  · simpa using retryGo_count_le retryable op max_attempts 0 none
  · intro k e hk hpre hop hr
    simpa using retryGo_nonretryable retryable op max_attempts k 0 none e hk
      (by simpa using hpre) (by simpa using hop) hr
  · intro hm hall
    simpa using retryGo_exhausted retryable op max_attempts 0 none hm
      (by simpa using hall)

/-- Always fails with a retryable error. -/
def opAllFail : Nat → Except Bool Unit := fun _ => .error true

/-- A retryable failure first, then a non-retryable one. -/
def opSecondFatal : Nat → Except Bool Unit := fun i =>
  if i = 0 then .error true else .error false

/-- Witness for C6: with the identity classification on `Bool` errors,
a budget of 3 exhausts on always-retryable failures after exactly 3
invocations carrying the last failure, and a non-retryable failure on
the second invocation propagates after exactly 2 invocations. -/
theorem retry_executor_spec_witness :
    retry_with_backoff (fun e => e) 3 opAllFail = (.exhausted (some true), 3) ∧
      retry_with_backoff (fun e => e) 3 opSecondFatal = (.nonRetryable false, 2) := by
  constructor
  · obtain ⟨e, he, hres⟩ := (retry_executor_spec (fun e => e) 3 opAllFail).2.2
      (by norm_num) (fun j _ => ⟨true, rfl, rfl⟩)
    have heq : e = true := (Except.error.inj he).symm
    rw [hres, heq]
  · exact (retry_executor_spec (fun e => e) 3 opSecondFatal).2.1 1 false (by norm_num)
      (fun j hj => by
        have hj0 : j = 0 := by omega
        subst hj0
        exact ⟨true, rfl, rfl⟩)
      rfl rfl

/-! ### Filename generation (C9) -/

/-- The character-replacement pass leaves no reserved character behind. -/
theorem replace_no_reserved (l : List Char) :
    ∀ c ∈ l.map (fun c => if isReservedChar c then '_' else c),
      isReservedChar c = false := by
  intro c hc
  obtain ⟨a, _, rfl⟩ := List.mem_map.1 hc
  by_cases h : isReservedChar a = true
  · simp only [h, if_true]
    decide
  · simp only [Bool.not_eq_true] at h
    simp [h]

/-- The `stripEnds` pass only removes characters. -/
theorem stripEnds_subset (l : List Char) : ∀ c ∈ stripEnds l, c ∈ l := by
  intro c hc
  unfold stripEnds at hc
  have h1 := List.mem_reverse.1 hc
  have h2 := (List.dropWhile_sublist isStripChar).mem h1
  have h3 := List.mem_reverse.1 h2
  exact (List.dropWhile_sublist isStripChar).mem h3

/-- No character of a sanitized name is reserved. -/
theorem sanitize_filename_no_reserved (name : String) :
    ∀ c ∈ (sanitize_filename name).toList, isReservedChar c = false := by
  intro c hc
  have hcore : ∀ d ∈ (stripEnds (name.toList.map
      (fun ch => if isReservedChar ch then '_' else ch))).take 100,
      isReservedChar d = false := by
    intro d hd
    exact replace_no_reserved name.toList d
      (stripEnds_subset _ d (List.take_subset 100 _ hd))
  simp only [sanitize_filename] at hc
  split at hc
  · have h' : c ∈ ['u', 'n', 'k', 'n', 'o', 'w', 'n'] := hc
    fin_cases h' <;> decide
  · exact hcore c hc

/-- C9: a generated recording filename is the sanitized source name,
an underscore, the timestamp, a dot and the extension; it contains no
reserved character when the timestamp and extension do not; and on the
concrete input `"Ch/an:nel*"` with timestamp `20240101_120000` and
extension `mp4` it is exactly `"Ch_an_nel__20240101_120000.mp4"`. -/
theorem generate_filename_spec (name timestamp extension : String)
    (hts : ∀ c ∈ timestamp.toList, isReservedChar c = false)
    (hext : ∀ c ∈ extension.toList, isReservedChar c = false) :
    generate_filename name extension timestamp =
        sanitize_filename name ++ "_" ++ timestamp ++ "." ++ extension ∧
      (∀ c ∈ (generate_filename name extension timestamp).toList,
        isReservedChar c = false) ∧
      generate_filename "Ch/an:nel*" "mp4" "20240101_120000" =
        "Ch_an_nel__20240101_120000.mp4" := by
  refine ⟨rfl, ?_, by decide⟩
  intro c hc
  have hsplit : (generate_filename name extension timestamp).toList =
      (sanitize_filename name).toList ++ "_".toList ++ timestamp.toList ++
        ".".toList ++ extension.toList := by
    simp only [generate_filename]
    rw [show ∀ a b : String, (a ++ b).toList = a.toList ++ b.toList from
      fun a b => String.data_append a b]
    rw [show ∀ a b : String, (a ++ b).toList = a.toList ++ b.toList from
      fun a b => String.data_append a b]
    rw [show ∀ a b : String, (a ++ b).toList = a.toList ++ b.toList from
      fun a b => String.data_append a b]
    rw [show ∀ a b : String, (a ++ b).toList = a.toList ++ b.toList from
      fun a b => String.data_append a b]
  rw [hsplit] at hc
  simp only [List.mem_append] at hc
  rcases hc with ((((h | h) | h) | h) | h)
  · exact sanitize_filename_no_reserved name c h
  · have h' : c ∈ ['_'] := h
    have hcu : c = '_' := by simpa using h'
    subst hcu
    decide
  · exact hts c h
  · have h' : c ∈ ['.'] := h
    have hcd : c = '.' := by simpa using h'
    subst hcd
    decide
  · exact hext c h

/-- Witness for C9 at the concrete inputs of the spec's example. -/
theorem generate_filename_spec_witness :
    generate_filename "Ch/an:nel*" "mp4" "20240101_120000" =
        sanitize_filename "Ch/an:nel*" ++ "_" ++ "20240101_120000" ++ "." ++ "mp4" ∧
      (∀ c ∈ (generate_filename "Ch/an:nel*" "mp4" "20240101_120000").toList,
        isReservedChar c = false) ∧
      generate_filename "Ch/an:nel*" "mp4" "20240101_120000" =
        "Ch_an_nel__20240101_120000.mp4" :=
  generate_filename_spec "Ch/an:nel*" "20240101_120000" "mp4" (by decide) (by decide)

/-! ### Monitor recording-flag invariant (C4) -/

/-- After a `_start_recording` call the flag agrees with whether a
supervisor is stored (given that none was stored before, which holds at
every call site), and the liveness field is untouched. -/
theorem monitorStartRecording_inv (s : ChannelState) (status : LiveStatus)
    (env : MonitorEnv) (hrec : s.recorder = none) :
    ((monitorStartRecording s status env).1.is_recording =
        (monitorStartRecording s status env).1.recorder.isSome) ∧
      (monitorStartRecording s status env).1.is_live = s.is_live := by
  by_cases hu : env.urlOk = true
  · by_cases hd : env.startEnv.diskOk = true
    · by_cases hl : env.startEnv.launchOk = true
      · simp [monitorStartRecording, start_recording, initialRecorder, hu, hd, hl]
      · simp [monitorStartRecording, start_recording, initialRecorder, hu, hd, hl, hrec]
    · simp [monitorStartRecording, start_recording, initialRecorder, hu, hd, hrec]
  · simp [monitorStartRecording, hu, hrec]

/-- After a `_stop_recording` call the flag is cleared and no supervisor
is stored; the liveness field is untouched. -/
theorem monitorStopRecording_inv (s : ChannelState) :
    (monitorStopRecording s).1.is_recording = false ∧
      (monitorStopRecording s).1.recorder = none ∧
      (monitorStopRecording s).1.is_live = s.is_live := by
  simp [monitorStopRecording]

/-- Invariant of every reachable per-channel state: the
`is_recording` flag agrees with whether a supervisor reference is
stored, and the flag is only ever set while the channel is marked
live. -/
theorem reachable_channel_inv (s : ChannelState) (h : ReachableChannel s) :
    s.is_recording = s.recorder.isSome ∧ (s.is_recording = true → s.is_live = true) := by
  induction h with
  | init => exact ⟨rfl, fun hx => by cases hx⟩
  | poll s p env hs ih =>
    obtain ⟨ih1, ih2⟩ := ih
    cases p with
    | channelNotFoundErr msg => exact ⟨ih1, ih2⟩
    | youTubeErr msg => exact ⟨ih1, ih2⟩
    | ok status =>
      have hlast1 : ({ s with last_error := none } : ChannelState).recorder = s.recorder := rfl
      by_cases hl : status.is_live = true
      · by_cases hw : s.is_live = true
        · -- live and was live: restart on a changed video id, else no action
          by_cases hv : status.video_id ≠ ({ s with last_error := none } : ChannelState).current_video_id
          · have hstep : (checkChannel s (.ok status) env).1 =
                { (monitorStartRecording (monitorStopRecording
                    { s with last_error := none }).1 status env).1 with
                  is_live := status.is_live } := by
              simp [checkChannel, hl, hw, hv]
            have hstop := monitorStopRecording_inv ({ s with last_error := none })
            have hstart := monitorStartRecording_inv
              (monitorStopRecording { s with last_error := none }).1 status env hstop.2.1
            rw [hstep]
            exact ⟨hstart.1, fun _ => hl⟩
          · have hstep : (checkChannel s (.ok status) env).1 =
                { ({ s with last_error := none } : ChannelState) with
                  is_live := status.is_live } := by
              simp [checkChannel, hl, hw, hv]
            rw [hstep]
            exact ⟨ih1, fun _ => hl⟩
        · -- just went live: start
          have hstep : (checkChannel s (.ok status) env).1 =
              { (monitorStartRecording { s with last_error := none } status env).1 with
                is_live := status.is_live } := by
            simp [checkChannel, hl, hw]
          have hrecnone : ({ s with last_error := none } : ChannelState).recorder = none := by
            rw [hlast1]
            have : s.is_recording = false := by
              cases hsr : s.is_recording with
              | false => rfl
              | true => exact absurd (ih2 hsr) hw
            rw [this] at ih1
            cases hrec : s.recorder with
            | none => rfl
            | some r => rw [hrec] at ih1; cases ih1
          have hstart := monitorStartRecording_inv
            ({ s with last_error := none }) status env hrecnone
          rw [hstep]
          exact ⟨hstart.1, fun _ => hl⟩
      · by_cases hw : s.is_live = true
        · -- just went offline: stop
          have hstep : (checkChannel s (.ok status) env).1 =
              { (monitorStopRecording { s with last_error := none }).1 with
                is_live := status.is_live } := by
            simp [checkChannel, hl, hw]
          have hstop := monitorStopRecording_inv ({ s with last_error := none })
          rw [hstep]
          refine ⟨?_, fun hx => ?_⟩
          · show (monitorStopRecording { s with last_error := none }).1.is_recording =
              (monitorStopRecording { s with last_error := none }).1.recorder.isSome
            rw [hstop.1, hstop.2.1]
            rfl
          · have hx' : (monitorStopRecording
                { s with last_error := none }).1.is_recording = true := hx
            rw [hstop.1] at hx'
            cases hx'
        · -- offline before and after: no action
          have hstep : (checkChannel s (.ok status) env).1 =
              { ({ s with last_error := none } : ChannelState) with
                is_live := status.is_live } := by
            simp [checkChannel, hl, hw]
          rw [hstep]
          refine ⟨ih1, fun hx => absurd (ih2 hx) hw⟩
  | procExit s hs ih =>
    obtain ⟨ih1, ih2⟩ := ih
    refine ⟨?_, ih2⟩
    show s.is_recording = (processExit s).recorder.isSome
    rw [ih1]
    simp [processExit, Option.isSome_map']

/-- C4 (amended): in every reachable per-channel state the
`is_recording` flag is true exactly when the state holds a Session
Supervisor reference — the flag tracks the stored reference, not
whether the supervisor's process is still alive. -/
theorem recording_flag_iff_supervisor_reference (s : ChannelState)
    (h : ReachableChannel s) :
    s.is_recording = true ↔ s.recorder.isSome = true := by
  rw [(reachable_channel_inv s h).1]

/-- Witness for C4's amended invariant at the initial state. -/
theorem recording_flag_iff_supervisor_reference_witness :
    initialChannelState.is_recording = true ↔
      initialChannelState.recorder.isSome = true :=
  recording_flag_iff_supervisor_reference initialChannelState ReachableChannel.init

/-- A channel that went live (the start succeeded) and whose capture
process then exited on its own while nothing else changed. -/
def exitedState : ChannelState :=
  processExit (checkChannel initialChannelState
    (.ok { is_live := true, video_id := some "A" }) {}).1

/-- C4 counterexample: `exitedState` is reachable, its
`recording-in-progress` flag is `true`, yet its supervisor's liveness
probe (`is_recording`, which polls the owned process) answers `false` —
the flag is not equivalent to owning a live process handle. -/
theorem recording_flag_with_dead_process :
    ReachableChannel exitedState ∧ exitedState.is_recording = true ∧
      exitedState.recorder.map is_recording = some false := by
  refine ⟨ReachableChannel.procExit _ (ReachableChannel.poll initialChannelState
    (.ok { is_live := true, video_id := some "A" }) {} ReachableChannel.init),
    ?_, ?_⟩ <;> decide

end YtRec
